import Mathlib

/-!
Verification development for the query-fan-out repository.

The development shallowly embeds the pieces of `src/app.py` and
`src/reddit_scrapper.py` that the specification's claims are about:

* the batch-analysis loop of `app.py` (lines 281-312): batch planning,
  the per-batch analysis call, accumulation of successful batch results,
  and the final aggregation of `batch_analysis` rows;
* the resilient analysis caller `analyze_content_gaps_batch`
  (lines 129-204): the empty-content guard, the greedy JSON-span
  extraction regex, and the bounded retry loop with its sleeps;
* the Reddit field extractor `extract_reddit_details` and
  `extract_with_regex` of `reddit_scrapper.py` (lines 35-169), including
  the relative "time ago" computation.

External collaborators (the Gemini model call, `json.loads`,
BeautifulSoup's parse of the HTML, and Python's `datetime` parsing) are
modelled as function parameters / pre-extracted inputs, exactly at the
interface the source code consumes them.  Raw text is modelled as
`List Char`; machine work stays in `Nat`/`Int`.
-/

/-- Ceiling division on naturals, `(a + b - 1) / b`; this is the value of
Python's `math.ceil(a / b)` for the integer inputs the code uses. -/
def ceilDiv (a b : Nat) : Nat := (a + b - 1) / b

/-! ## Batch planning and the batch loop (`app.py` lines 281-300) -/

/-- One row of the model's parsed `batch_analysis` array.  The JSON object
may omit `coverage_score`, hence the `Option`; no validation or defaulting
is performed anywhere in the source. -/
structure AnalysisEntry where
  query : String
  coverage_score : Option Int
deriving DecidableEq

/-- The parsed JSON result of one successful batch call
(`batch_results` in `app.py`).  The dict may lack the `batch_analysis`
key, which the aggregation reads with `.get('batch_analysis', [])`. -/
structure BatchResult where
  batch_analysis : Option (List AnalysisEntry)
deriving DecidableEq

/-- The slices the batch loop of `app.py` (lines 281-290) feeds to the
analysis call: `num_batches = math.ceil(len(queries)/batch_size)` and for
each `batch_num` the slice `queries[batch_num*batch_size :
min((batch_num+1)*batch_size, len(queries))]`. -/
def planBatches {α : Type} (queries : List α) (batch_size : Nat) : List (List α) :=
  let num_batches := ceilDiv queries.length batch_size
  (List.range num_batches).map (fun batch_num =>
    let start_idx := batch_num * batch_size
    let end_idx := min ((batch_num + 1) * batch_size) queries.length
    (queries.drop start_idx).take (end_idx - start_idx))

/-- The `if batch_results: all_analysis_results.append(batch_results)`
step of `app.py` lines 294-295: append only a truthy result. -/
def appendIfSome {β : Type} (acc : List β) (r : Option β) : List β :=
  match r with
  | some batch_results => acc ++ [batch_results]
  | none => acc

/-- The batch loop of `app.py` lines 287-298: for each batch in order,
call `analyze_content_gaps_batch` (here the abstract `analyze`) and
append the result to `all_analysis_results` only when it is truthy; a
falsy result (`None`, or an empty parsed dict) is dropped.  No record of
the failed batch's queries is kept. -/
def batchLoop {α : Type} (queries : List α) (batch_size : Nat)
    (analyze : List α → Option BatchResult) : List BatchResult :=
  let num_batches := ceilDiv queries.length batch_size
  (List.range num_batches).foldl (fun all_analysis_results batch_num =>
    let start_idx := batch_num * batch_size
    let end_idx := min ((batch_num + 1) * batch_size) queries.length
    let batch_queries := (queries.drop start_idx).take (end_idx - start_idx)
    appendIfSome all_analysis_results (analyze batch_queries)) []

/-- The aggregation of `app.py` lines 308-310: `all_query_analyses`
extends, batch by batch, with `batch_result.get('batch_analysis', [])`.
Entries are passed through unchanged. -/
def allQueryAnalyses (analysis_results : List BatchResult) : List AnalysisEntry :=
  analysis_results.foldl
    (fun all_query_analyses batch_result =>
      all_query_analyses ++ batch_result.batch_analysis.getD []) []

/-! ## JSON-span extraction (`app.py` line 179)

`re.search(r'\{.*\}', raw_text, re.DOTALL)` with a greedy `.*`: the match
starts at the first `{` that has some `}` after it and extends to the
last `}` of the whole text. -/

/-- Longest prefix of `s` ending at the last `}` of `s` (inclusive), or
`none` when `s` contains no `}`.  This is what the greedy `.*\}` part of
the regex consumes once the starting `{` is fixed. -/
def takeThruLastClose : List Char → Option (List Char)
  | [] => none
  | c :: rest =>
    match takeThruLastClose rest with
    | some t => some (c :: t)
    | none => if c = '\x7d' then some [c] else none

/-- `re.search(r'\{.*\}', s, re.DOTALL)` on the text `s`: scan for the
first `{`; the greedy match from it runs through the last `}` of the
remaining text.  If no `}` follows that `{`, no later `{` can match
either (the remaining text contains no `}` at all), so the scan of the
tail faithfully returns `none`. -/
def regexSearchBrace : List Char → Option (List Char)
  | [] => none
  | c :: rest =>
    if c = '\x7b' then
      match takeThruLastClose rest with
      | some t => some (c :: t)
      | none => regexSearchBrace rest
    else regexSearchBrace rest

/-- Modelled from the spec: consume characters with a brace-depth counter
(current depth in the argument, at least 1) until the depth returns to
zero; returns the consumed characters or `none` when the input ends
first.  Used only to state what "the first balanced `{...}` span" of the
spec means; the source code has no such computation. -/
def completeBalanced : List Char → Nat → Option (List Char)
  | [], _ => none
  | c :: rest, depth =>
    if c = '\x7b' then (completeBalanced rest (depth + 1)).map (fun t => c :: t)
    else if c = '\x7d' then
      if depth = 1 then some [c]
      else (completeBalanced rest (depth - 1)).map (fun t => c :: t)
    else (completeBalanced rest depth).map (fun t => c :: t)

/-- Modelled from the spec: "the first balanced `{...}` span" of a text,
the spec's stated extraction strategy (spec section 4.4 step 2), written
here only to be compared with the source's `regexSearchBrace`. -/
def firstBalancedSpan : List Char → Option (List Char)
  | [] => none
  | c :: rest =>
    if c = '\x7b' then
      match completeBalanced rest 1 with
      | some t => some (c :: t)
      | none => firstBalancedSpan rest
    else firstBalancedSpan rest

/-! ## The resilient analysis caller (`app.py` lines 129-204) -/

/-- Python `str.strip()` on the model's raw response text. -/
def stripChars (s : List Char) : List Char :=
  ((s.dropWhile Char.isWhitespace).reverse.dropWhile Char.isWhitespace).reverse

/-- Observable outcome of one call of `analyze_content_gaps_batch`: the
returned value, how many model calls were made, and the sequence of
`time.sleep` delays (in seconds) performed between attempts. -/
structure CallTrace (J : Type) where
  result : Option J
  calls : Nat
  sleeps : List Nat
deriving DecidableEq

/-- The retry loop of `app.py` lines 172-204, `for attempt in
range(max_retries)`, indexed by the number of loop iterations still to
run (`remaining = max_retries - attempt`, so the source's
`attempt < max_retries - 1` test is `remaining ≠ 1` here) together with
the current attempt index.  `gen` is the model call (attempt index to raw
response text, `model.generate_content(...).text`); `parse` is
`json.loads` returning `none` on `JSONDecodeError`.  Each attempt strips
the response, extracts the greedy brace span (a missing span raises the
same handled `ValueError` as a parse failure), and parses it; on failure
the loop sleeps 2 seconds before every attempt except the last, and after
the last attempt returns `None`. -/
def attemptLoop {J : Type} (gen : Nat → String) (parse : String → Option J) :
    Nat → Nat → CallTrace J
  | 0, _ => { result := none, calls := 0, sleeps := [] }
  | remaining + 1, attempt =>
    let raw_text := stripChars (gen attempt).data
    match (regexSearchBrace raw_text).bind (fun json_text => parse (String.mk json_text)) with
    | some parsed => { result := some parsed, calls := 1, sleeps := [] }
    | none =>
      if remaining = 0 then { result := none, calls := 1, sleeps := [] }
      else
        let t := attemptLoop gen parse remaining (attempt + 1)
        { result := t.result, calls := t.calls + 1, sleeps := 2 :: t.sleeps }

/-- `analyze_content_gaps_batch` of `app.py`: the empty-content guard at
lines 130-131 (`if not scraped_contents: return None`, before any model
call), then the 3-attempt retry loop.  The queries batch and scraped
contents shape the prompt, which is part of what `gen` closes over. -/
def analyze_content_gaps_batch {α J : Type} (gen : Nat → String)
    (parse : String → Option J) (queries_batch : List α)
    (scraped_contents : List String) : CallTrace J :=
  if scraped_contents = [] then { result := none, calls := 0, sleeps := [] }
  else
    let _ := queries_batch
    attemptLoop gen parse 3 0

/-! ## Substring search and attribute-capture regexes
(`reddit_scrapper.py` lines 141-169) -/

/-- The text after the first occurrence of `pat` in `s`, or `none` when
`pat` does not occur.  Backs the substring (`in`) checks and the literal
part of the `re.search` patterns. -/
def findAfter (pat : List Char) : List Char → Option (List Char)
  | [] => if pat = [] then some [] else none
  | c :: rest =>
    if pat.isPrefixOf (c :: rest) then some ((c :: rest).drop pat.length)
    else findAfter pat rest

/-- Python's `pat in s` substring containment. -/
def containsSeq (pat s : List Char) : Bool := (findAfter pat s).isSome

/-- The `([^"]*)"` part of the attribute regexes: the characters up to
the next double quote, or `none` when no closing quote follows (in which
case the regex does not match at all). -/
def captureUntilQuote : List Char → Option (List Char)
  | [] => none
  | c :: rest =>
    if c = '"' then some [] else (captureUntilQuote rest).map (fun t => c :: t)

/-- `re.search(r'name="([^"]*)"', s)` for a literal attribute `name`:
find the first `name="` and capture up to the following quote.  If the
first occurrence has no closing quote then the text after it contains no
quote at all, so no later occurrence of the pattern (which itself
contains a quote) can exist and the regex fails everywhere — returning
`none` is faithful. -/
def captureAttr (name : List Char) (s : List Char) : Option (List Char) :=
  (findAfter (name ++ ('=' :: '"' :: [])) s).bind captureUntilQuote

/-! ## The Reddit field extractor (`reddit_scrapper.py` lines 35-169) -/

/-- The `details` dict of `extract_reddit_details`. -/
structure RedditDetails where
  reddit_title : String
  reddit_posted_time : String
  reddit_time_ago : String
  reddit_comments_count : String
  reddit_score : String
  reddit_is_archived : String
deriving DecidableEq

/-- The all-`Error` record returned when the HTML fetch failed
(`reddit_scrapper.py` lines 36-44). -/
def errorDetails : RedditDetails :=
  { reddit_title := "Error: Could not fetch", reddit_posted_time := "Error",
    reddit_time_ago := "Error", reddit_comments_count := "Error",
    reddit_score := "Error", reddit_is_archived := "Error" }

/-- The initial `details` dict (`reddit_scrapper.py` lines 48-55). -/
def defaultDetails : RedditDetails :=
  { reddit_title := "Not found", reddit_posted_time := "Not found",
    reddit_time_ago := "Not found", reddit_comments_count := "Not found",
    reddit_score := "Not found", reddit_is_archived := "No" }

/-- The `<shreddit-post>` element found by BeautifulSoup, as the source
consumes it: its four read attributes, each possibly absent. -/
structure ShredditPost where
  postTitle : Option String
  createdTimestamp : Option String
  commentCount : Option String
  score : Option String

/-- Python truthiness of `element.get(attr)`: present and non-empty. -/
def truthy : Option String → Bool
  | none => false
  | some s => !(s == "")

/-- The primary extraction step (`reddit_scrapper.py` lines 57-125):
when the `shreddit-post` marker was found, read each truthy attribute
into the details dict.  The timestamp branch's `datetime` work (lines
66-89, stdlib collaborator) is the parameter `tsInterpret`, giving the
normalized `posted_time`/`time_ago` pair on success and `none` when the
Python code would raise, which the source maps to the two
`Parse error` markers (lines 115-117). -/
def applyShreddit (post : Option ShredditPost)
    (tsInterpret : String → Option (String × String))
    (d : RedditDetails) : RedditDetails :=
  match post with
  | none => d
  | some p =>
    let d1 := if truthy p.postTitle then
        { d with reddit_title := p.postTitle.getD "" } else d
    let d2 := if truthy p.createdTimestamp then
        match tsInterpret (p.createdTimestamp.getD "") with
        | some pair =>
          { d1 with reddit_posted_time := pair.1, reddit_time_ago := pair.2 }
        | none =>
          { d1 with reddit_posted_time := "Parse error",
                    reddit_time_ago := "Parse error" }
      else d1
    let d3 := if truthy p.commentCount then
        { d2 with reddit_comments_count := p.commentCount.getD "" } else d2
    if truthy p.score then { d3 with reddit_score := p.score.getD "" } else d3

/-- The archived/locked phrase test on the status span's lowercased text
(`reddit_scrapper.py` lines 128-131): span found and its text contains
`archived post` or `locked post`. -/
def statusPhrase : Option (List Char) → Bool
  | none => false
  | some t =>
    let text := t.map Char.toLower
    containsSeq "archived post".data text || containsSeq "locked post".data text

/-- The status-span step (`reddit_scrapper.py` lines 127-132):
`statusText` is the `get_text()` of the span BeautifulSoup found, `none`
when no such span exists. -/
def applyStatusSpan (statusText : Option (List Char)) (d : RedditDetails) :
    RedditDetails :=
  if statusPhrase statusText then { d with reddit_is_archived := "Yes" } else d

/-- The case-insensitive `locked` search of `reddit_scrapper.py`
line 166 (`re.search(r'locked', html_content, re.IGNORECASE)`). -/
def lockedAnywhere (html : List Char) : Bool :=
  containsSeq "locked".data (html.map Char.toLower)

/-- The partial dict built by `extract_with_regex`: only the keys that
were set. -/
structure RegexDetails where
  reddit_title : Option String
  reddit_comments_count : Option String
  reddit_score : Option String
  reddit_is_archived : Option String

/-- `extract_with_regex` (`reddit_scrapper.py` lines 141-169): attribute
regexes for title, comment count and score on the raw markup, plus the
archived (`'Archived post.' in html_content`) and case-insensitive
`locked` checks, both of which write the same value `Yes`. -/
def extract_with_regex (html_content : List Char) : RegexDetails :=
  { reddit_title := (captureAttr "post-title".data html_content).map String.mk,
    reddit_comments_count :=
      (captureAttr "comment-count".data html_content).map String.mk,
    reddit_score := (captureAttr "score".data html_content).map String.mk,
    reddit_is_archived :=
      if containsSeq "Archived post.".data html_content || lockedAnywhere html_content
      then some "Yes" else none }

/-- `details.update(regex_details)` (`reddit_scrapper.py` line 137):
every key present in the regex dict overwrites the existing value. -/
def applyUpdate (d : RedditDetails) (r : RegexDetails) : RedditDetails :=
  { d with
    reddit_title := r.reddit_title.getD d.reddit_title,
    reddit_comments_count := r.reddit_comments_count.getD d.reddit_comments_count,
    reddit_score := r.reddit_score.getD d.reddit_score,
    reddit_is_archived := r.reddit_is_archived.getD d.reddit_is_archived }

/-- `extract_reddit_details` (`reddit_scrapper.py` lines 35-139).
`htmlContent` is the fetched markup (`none` when `get_reddit_html`
failed); `post` and `statusText` are BeautifulSoup's finds on that
markup (collaborator outputs, supplied as inputs).  After the primary
and status steps, the regex fallback runs exactly when the title still
equals `Not found`, and its results are merged with dict `update`. -/
def extract_reddit_details (htmlContent : Option (List Char))
    (post : Option ShredditPost) (statusText : Option (List Char))
    (tsInterpret : String → Option (String × String)) : RedditDetails :=
  match htmlContent with
  | none => errorDetails
  | some html =>
    let d := applyStatusSpan statusText (applyShreddit post tsInterpret defaultDetails)
    if d.reddit_title = "Not found" then applyUpdate d (extract_with_regex html)
    else d

/-! ## The relative "time ago" label (`reddit_scrapper.py` lines 91-113)

The delta `now - dt` is modelled by its total seconds as a natural
number (the claims concern non-negative deltas); `diff.days` is the
whole-day count `total_seconds / 86400`, and Python's
`math.ceil(days / k)` on these magnitudes is exact ceiling division. -/

/-- The `reddit_time_ago` computation of `extract_reddit_details`. -/
def timeAgo (total_seconds : Nat) : String :=
  let total_days := total_seconds / 86400
  if total_days ≥ 365 then toString (ceilDiv total_days 365) ++ " yr. ago"
  else if total_days ≥ 30 then toString (ceilDiv total_days 30) ++ " mo. ago"
  else if total_days ≥ 1 then
    toString total_days ++ " day" ++ (if total_days > 1 then "s" else "") ++ " ago"
  else if total_seconds ≥ 3600 then toString (total_seconds / 3600) ++ " hr. ago"
  else if total_seconds ≥ 60 then toString (total_seconds / 60) ++ " min. ago"
  else "now"

/-! ## Helper lemmas -/

theorem appendIfSome_none {β : Type} (acc : List β) :
    appendIfSome acc none = acc := rfl

theorem appendIfSome_some {β : Type} (acc : List β) (b : β) :
    appendIfSome acc (some b) = acc ++ [b] := rfl

theorem foldl_append_filterMap {α β : Type} (f : α → Option β) (l : List α)
    (init : List β) :
    l.foldl (fun acc a => appendIfSome acc (f a)) init = init ++ l.filterMap f := by
  induction l generalizing init with
  | nil => simp
  | cons a l ih =>
    cases h : f a with
    | none =>
      simp only [List.foldl_cons, List.filterMap_cons, h, appendIfSome_none, ih]
    | some b =>
      simp only [List.foldl_cons, List.filterMap_cons, h, appendIfSome_some, ih,
        List.append_assoc, List.singleton_append]

theorem foldl_append_flatten {α β : Type} (g : α → List β) (l : List α)
    (init : List β) :
    l.foldl (fun acc a => acc ++ g a) init = init ++ (l.map g).flatten := by
  induction l generalizing init with
  | nil => simp
  | cons a l ih =>
    simp only [List.foldl_cons, List.map_cons, List.flatten_cons, ih,
      List.append_assoc]

theorem allQueryAnalyses_eq (analysis_results : List BatchResult) :
    allQueryAnalyses analysis_results
      = (analysis_results.map (fun r => r.batch_analysis.getD [])).flatten := by
  unfold allQueryAnalyses
  exact foldl_append_flatten _ _ []

theorem batchLoop_eq_filterMap {α : Type} (queries : List α) (batch_size : Nat)
    (analyze : List α → Option BatchResult) :
    batchLoop queries batch_size analyze
      = (planBatches queries batch_size).filterMap analyze := by
  unfold batchLoop planBatches
  rw [List.filterMap_map]
  exact foldl_append_filterMap
    (fun batch_num => analyze ((queries.drop (batch_num * batch_size)).take
      (min ((batch_num + 1) * batch_size) queries.length - batch_num * batch_size)))
    (List.range (ceilDiv queries.length batch_size)) []

theorem planBatches_take (queries : List α) (B : Nat) :
    planBatches queries B
      = (List.range (ceilDiv queries.length B)).map
          (fun k => (queries.drop (k * B)).take B) := by
  unfold planBatches
  apply List.map_congr_left
  intro k _
  have hsm : (k + 1) * B = k * B + B := Nat.succ_mul k B
  have hlen : (queries.drop (k * B)).length = queries.length - k * B := by simp
  rcases le_or_lt queries.length ((k + 1) * B) with h | h
  · rw [min_eq_right h]
    rw [hsm] at h
    have h2 : (queries.drop (k * B)).length ≤ B := by
      rw [hlen]; omega
    rw [List.take_of_length_le (le_of_eq hlen), List.take_of_length_le h2]
  · rw [min_eq_left h.le, hsm]
    show List.take (k * B + B - k * B) (List.drop (k * B) queries)
      = List.take B (List.drop (k * B) queries)
    rw [Nat.add_sub_cancel_left]

theorem flatten_range_chunks (queries : List α) (B : Nat) (n : Nat) :
    ((List.range n).map (fun k => (queries.drop (k * B)).take B)).flatten
      = queries.take (n * B) := by
  induction n with
  | zero => simp
  | succ n ih =>
    rw [List.range_succ, List.map_append, List.flatten_append, ih]
    simp only [List.map_cons, List.map_nil, List.flatten_cons, List.flatten_nil,
      List.append_nil]
    rw [Nat.succ_mul, List.take_add]

theorem length_le_ceilDiv_mul (N B : Nat) (hB : 0 < B) : N ≤ ceilDiv N B * B := by
  unfold ceilDiv
  have h1 := Nat.div_add_mod (N + B - 1) B
  have h2 : (N + B - 1) % B < B := Nat.mod_lt _ hB
  rw [Nat.mul_comm]
  omega

/-! ## Claims -/

/-- C5: for every ordered list of N work items and every positive batch
size B, the batch planner produces exactly `ceil(N/B)` contiguous,
non-overlapping, order-preserving slices whose concatenation reconstructs
the original list exactly, and N = 0 yields zero batches. -/
theorem planBatches_correct {α : Type} (queries : List α) (B : Nat) (hB : 0 < B) :
    (planBatches queries B).length = ceilDiv queries.length B
    ∧ (planBatches queries B).flatten = queries
    ∧ planBatches ([] : List α) B = [] := by
  refine ⟨by simp [planBatches], ?_, ?_⟩
  · rw [planBatches_take, flatten_range_chunks]
    exact List.take_of_length_le (length_le_ceilDiv_mul _ _ hB)
  · have : ceilDiv 0 B = 0 := Nat.div_eq_of_lt (by omega)
    simp [planBatches, this]

/-- C5 witness: the planner at the concrete list `[1,2,3]` with batch
size 2. -/
theorem planBatches_correct_witness :
    (planBatches [1, 2, 3] 2).length = ceilDiv 3 2
    ∧ (planBatches [1, 2, 3] 2).flatten = [1, 2, 3]
    ∧ planBatches ([] : List Nat) 2 = [] :=
  planBatches_correct [1, 2, 3] 2 (by decide)

/-- C1 counterexample: one generated query whose batch is successfully
parsed (the model returns the truthy dict with `batch_analysis := []`),
yet the reconciled output has zero rows for it — not exactly one — and
the pipeline produces no skipped list at all (its only outputs are the
accumulated batch results and the aggregated rows). -/
theorem batch_pipeline_drops_query :
    allQueryAnalyses
        (batchLoop ["q1"] 10 (fun _ => some { batch_analysis := some [] })) = []
    ∧ (batchLoop ["q1"] 10 (fun _ => some { batch_analysis := some [] })).length = 1
    ∧ ["q1"].length = 1 := by
  exact ⟨rfl, rfl, rfl⟩

/-- C1 amended: the aggregated rows are exactly the concatenation, in
batch order, of the `batch_analysis` arrays of the batches whose analysis
call returned a truthy result; failed batches contribute nothing and no
skipped list is produced, and a successful batch contributes however many
rows its `batch_analysis` array holds, independent of its query count. -/
theorem batch_pipeline_rows {α : Type} (queries : List α) (batch_size : Nat)
    (analyze : List α → Option BatchResult) :
    allQueryAnalyses (batchLoop queries batch_size analyze)
      = (((planBatches queries batch_size).filterMap analyze).map
          (fun r => r.batch_analysis.getD [])).flatten := by
  rw [batchLoop_eq_filterMap, allQueryAnalyses_eq]

/-- C9 counterexample: a parsed batch whose entries carry a
`coverage_score` of 15 (outside `[0, 10]`) and a missing
`coverage_score`; the aggregation passes both through unchanged — the
missing value is not defaulted to 0. -/
theorem coverage_score_not_validated :
    allQueryAnalyses
        [{ batch_analysis := some [{ query := "q", coverage_score := some 15 },
                                   { query := "q2", coverage_score := none }] }]
      = [{ query := "q", coverage_score := some 15 },
         { query := "q2", coverage_score := none }]
    ∧ ¬ ((15 : Int) ≤ 10) ∧ (none : Option Int) ≠ some 0 := by
  exact ⟨rfl, by decide, by decide⟩

/-- C9 amended: `coverage_score` values pass through the aggregation
unvalidated — an entry is in `all_query_analyses` exactly when it is an
entry of some successful batch's `batch_analysis`, with its score (or its
absence) unchanged; no `[0, 10]` check and no defaulting occurs. -/
theorem allQueryAnalyses_mem (analysis_results : List BatchResult)
    (e : AnalysisEntry) :
    e ∈ allQueryAnalyses analysis_results
      ↔ ∃ r, r ∈ analysis_results ∧ e ∈ r.batch_analysis.getD [] := by
  rw [allQueryAnalyses_eq]
  simp only [List.mem_flatten, List.mem_map]
  constructor
  · rintro ⟨l, ⟨r, hr, rfl⟩, he⟩
    exact ⟨r, hr, he⟩
  · rintro ⟨r, hr, he⟩
    exact ⟨r.batch_analysis.getD [], ⟨r, hr, rfl⟩, he⟩

theorem attemptLoop_all_fail {J : Type} (gen : Nat → String)
    (parse : String → Option J)
    (hfail : ∀ n, (regexSearchBrace (stripChars (gen n).data)).bind
      (fun json_text => parse (String.mk json_text)) = none) :
    attemptLoop gen parse 3 0 = { result := none, calls := 3, sleeps := [2, 2] } := by
  have h2 : attemptLoop gen parse 1 2
      = { result := none, calls := 1, sleeps := [] } := by
    rw [attemptLoop]
    simp only [hfail 2]
    rfl
  have h1 : attemptLoop gen parse 2 1
      = { result := none, calls := 2, sleeps := [2] } := by
    rw [attemptLoop]
    simp only [hfail 1, h2]
    rfl
  rw [attemptLoop]
  simp only [hfail 0, h1]
  rfl

/-- C2: when every model response yields no extractable-and-parseable
JSON object, `analyze_content_gaps_batch` makes exactly 3 model calls in
total and then returns the explicit no-result signal `None`; every
failure path of the source returns a value, so nothing is raised past
this boundary. -/
theorem analyze_retry_bound {α J : Type} (gen : Nat → String)
    (parse : String → Option J) (queries_batch : List α)
    (scraped_contents : List String) (hsc : scraped_contents ≠ [])
    (hfail : ∀ n, (regexSearchBrace (stripChars (gen n).data)).bind
      (fun json_text => parse (String.mk json_text)) = none) :
    (analyze_content_gaps_batch gen parse queries_batch scraped_contents).result
        = none
    ∧ (analyze_content_gaps_batch gen parse queries_batch scraped_contents).calls
        = 3 := by
  unfold analyze_content_gaps_batch
  rw [if_neg hsc, attemptLoop_all_fail gen parse hfail]
  exact ⟨rfl, rfl⟩

/-- C2 witness: a stub model that always answers text with no brace span,
and a parser that never succeeds. -/
theorem analyze_retry_bound_witness :
    (analyze_content_gaps_batch (fun _ => "no json here")
        (fun _ => (none : Option Unit)) ([] : List Unit) ["content"]).result = none
    ∧ (analyze_content_gaps_batch (fun _ => "no json here")
        (fun _ => (none : Option Unit)) ([] : List Unit) ["content"]).calls = 3 :=
  analyze_retry_bound _ _ _ _ (by decide) (fun _ => rfl)

/-- C3 counterexample: with a stub model whose responses never parse, the
delays waited between the consecutive failed attempts of one call are
2 seconds and then again 2 seconds — the delay does not increase from one
retry to the next. -/
theorem backoff_not_increasing :
    (analyze_content_gaps_batch (fun _ => "invalid")
        (fun _ => (none : Option Unit)) ([] : List Unit) ["c"]).sleeps = [2, 2]
    ∧ ¬ ((2 : Nat) < 2) := by
  exact ⟨rfl, by decide⟩

/-- C3 amended: the backoff between consecutive failed attempts is the
constant `time.sleep(2)` — with every attempt failing, the recorded
delays are exactly `[2, 2]`. -/
theorem analyze_constant_backoff {α J : Type} (gen : Nat → String)
    (parse : String → Option J) (queries_batch : List α)
    (scraped_contents : List String) (hsc : scraped_contents ≠ [])
    (hfail : ∀ n, (regexSearchBrace (stripChars (gen n).data)).bind
      (fun json_text => parse (String.mk json_text)) = none) :
    (analyze_content_gaps_batch gen parse queries_batch scraped_contents).sleeps
      = [2, 2] := by
  unfold analyze_content_gaps_batch
  rw [if_neg hsc, attemptLoop_all_fail gen parse hfail]

/-- C3 amended witness: the constant delays at a concrete failing stub. -/
theorem analyze_constant_backoff_witness :
    (analyze_content_gaps_batch (fun _ => "still not json")
        (fun _ => (none : Option Unit)) ([] : List Unit) ["page"]).sleeps = [2, 2] :=
  analyze_constant_backoff _ _ _ _ (by decide) (fun _ => rfl)

/-- C10: called with an empty scraped-contents list (the falsy case of
`if not scraped_contents`), the caller returns the failure signal
immediately: no model call and no retry sleep, whatever the queries
batch. -/
theorem analyze_empty_contents {α J : Type} (gen : Nat → String)
    (parse : String → Option J) (queries_batch : List α) :
    analyze_content_gaps_batch gen parse queries_batch []
      = { result := none, calls := 0, sleeps := [] } := rfl

theorem takeThruLastClose_of_not_mem (l : List Char) (h : '\x7d' ∉ l) :
    takeThruLastClose l = none := by
  induction l with
  | nil => rfl
  | cons c rest ih =>
    simp only [List.mem_cons, not_or] at h
    rw [takeThruLastClose, ih h.2]
    exact if_neg (fun hc => h.1 hc.symm)

theorem takeThruLastClose_append_none (a b : List Char)
    (hb : takeThruLastClose b = none) :
    takeThruLastClose (a ++ b) = takeThruLastClose a := by
  induction a with
  | nil => simpa using hb
  | cons c rest ih =>
    rw [List.cons_append]
    rw [takeThruLastClose, takeThruLastClose, ih]

theorem takeThruLastClose_snoc (u : List Char) :
    takeThruLastClose (u ++ ['\x7d']) = some (u ++ ['\x7d']) := by
  induction u with
  | nil => rfl
  | cons c rest ih =>
    rw [List.cons_append, takeThruLastClose, ih]

theorem completeBalanced_ends_close :
    ∀ (u : List Char) (d : Nat) (t : List Char),
      completeBalanced u d = some t → ∃ t0, t = t0 ++ ['\x7d'] := by
  intro u
  induction u with
  | nil => intro d t h; simp [completeBalanced] at h
  | cons c rest ih =>
    intro d t h
    rw [completeBalanced] at h
    by_cases hc : c = '\x7b'
    · rw [if_pos hc] at h
      obtain ⟨t0, h0, rfl⟩ := Option.map_eq_some'.mp h
      obtain ⟨t1, rfl⟩ := ih _ _ h0
      exact ⟨c :: t1, rfl⟩
    · rw [if_neg hc] at h
      by_cases hc2 : c = '\x7d'
      · rw [if_pos hc2] at h
        by_cases hd : d = 1
        · rw [if_pos hd] at h
          refine ⟨[], ?_⟩
          rw [← Option.some_inj.mp h, hc2]
          rfl
        · rw [if_neg hd] at h
          obtain ⟨t0, h0, rfl⟩ := Option.map_eq_some'.mp h
          obtain ⟨t1, rfl⟩ := ih _ _ h0
          exact ⟨c :: t1, rfl⟩
      · rw [if_neg hc2] at h
        obtain ⟨t0, h0, rfl⟩ := Option.map_eq_some'.mp h
        obtain ⟨t1, rfl⟩ := ih _ _ h0
        exact ⟨c :: t1, rfl⟩

theorem completeBalanced_append (post : List Char) :
    ∀ (u : List Char) (d : Nat) (t : List Char),
      completeBalanced u d = some t → completeBalanced (u ++ post) d = some t := by
  intro u
  induction u with
  | nil => intro d t h; simp [completeBalanced] at h
  | cons c rest ih =>
    intro d t h
    rw [List.cons_append]
    rw [completeBalanced] at h ⊢
    by_cases hc : c = '\x7b'
    · rw [if_pos hc] at h ⊢
      obtain ⟨t0, h0, rfl⟩ := Option.map_eq_some'.mp h
      rw [ih _ _ h0]
      rfl
    · rw [if_neg hc] at h ⊢
      by_cases hc2 : c = '\x7d'
      · rw [if_pos hc2] at h ⊢
        by_cases hd : d = 1
        · rw [if_pos hd] at h ⊢
          exact h
        · rw [if_neg hd] at h ⊢
          obtain ⟨t0, h0, rfl⟩ := Option.map_eq_some'.mp h
          rw [ih _ _ h0]
          rfl
      · rw [if_neg hc2] at h ⊢
        obtain ⟨t0, h0, rfl⟩ := Option.map_eq_some'.mp h
        rw [ih _ _ h0]
        rfl

theorem regexSearchBrace_append_of_no_open (pre s : List Char)
    (h : '\x7b' ∉ pre) :
    regexSearchBrace (pre ++ s) = regexSearchBrace s := by
  induction pre with
  | nil => rfl
  | cons c rest ih =>
    simp only [List.mem_cons, not_or] at h
    rw [List.cons_append, regexSearchBrace, if_neg (fun hc => h.1 hc.symm),
      ih h.2]

theorem firstBalancedSpan_append_of_no_open (pre s : List Char)
    (h : '\x7b' ∉ pre) :
    firstBalancedSpan (pre ++ s) = firstBalancedSpan s := by
  induction pre with
  | nil => rfl
  | cons c rest ih =>
    simp only [List.mem_cons, not_or] at h
    rw [List.cons_append, firstBalancedSpan, if_neg (fun hc => h.1 hc.symm),
      ih h.2]

/-- C4 counterexample: the response text `{a} {b}` contains a balanced
brace span, but the substring handed to the parser is the whole greedy
`{a} {b}` (first `{` to last `}`), not the first balanced span `{a}`. -/
theorem greedy_span_not_first_balanced :
    regexSearchBrace "\x7ba\x7d \x7bb\x7d".data
        = some "\x7ba\x7d \x7bb\x7d".data
    ∧ firstBalancedSpan "\x7ba\x7d \x7bb\x7d".data = some "\x7ba\x7d".data
    ∧ "\x7ba\x7d \x7bb\x7d".data ≠ "\x7ba\x7d".data := by
  exact ⟨rfl, rfl, by decide⟩

/-- C4 amended: the substring handed to the JSON parser is the greedy
span from the first `{` (that has some `}` after it) to the last `}` of
the response, not the first balanced span in general; the two coincide —
and leading/trailing commentary is tolerated — exactly in the common case
where the surrounding commentary contains no `{` before the object and no
`}` after it. -/
theorem greedy_span_spec (pre u post : List Char)
    (hpre : '\x7b' ∉ pre) (hpost : '\x7d' ∉ post)
    (hu : completeBalanced u 1 = some u) :
    regexSearchBrace (pre ++ '\x7b' :: (u ++ post)) = some ('\x7b' :: u)
    ∧ firstBalancedSpan (pre ++ '\x7b' :: (u ++ post)) = some ('\x7b' :: u) := by
  constructor
  · obtain ⟨u0, hu0⟩ := completeBalanced_ends_close u 1 u hu
    rw [regexSearchBrace_append_of_no_open pre _ hpre, regexSearchBrace,
      if_pos rfl,
      takeThruLastClose_append_none _ _ (takeThruLastClose_of_not_mem post hpost),
      hu0, takeThruLastClose_snoc]
  · rw [firstBalancedSpan_append_of_no_open pre _ hpre, firstBalancedSpan,
      if_pos rfl, completeBalanced_append post u 1 u hu]

/-- C4 amended witness: commentary around a single balanced object. -/
theorem greedy_span_spec_witness :
    regexSearchBrace
        ("json: ".data ++ '\x7b' :: ("\"a\":1\x7d".data ++ " end".data))
        = some ('\x7b' :: "\"a\":1\x7d".data)
    ∧ firstBalancedSpan
        ("json: ".data ++ '\x7b' :: ("\"a\":1\x7d".data ++ " end".data))
        = some ('\x7b' :: "\"a\":1\x7d".data) :=
  greedy_span_spec _ _ _ (by decide) (by decide) (by decide)

theorem applyShreddit_title (p : ShredditPost)
    (ts : String → Option (String × String)) (d : RedditDetails) :
    (applyShreddit (some p) ts d).reddit_title
      = if truthy p.postTitle then p.postTitle.getD "" else d.reddit_title := by
  simp only [applyShreddit]
  split_ifs <;> first | rfl | (split <;> rfl)

theorem applyShreddit_archived (p : ShredditPost)
    (ts : String → Option (String × String)) (d : RedditDetails) :
    (applyShreddit (some p) ts d).reddit_is_archived = d.reddit_is_archived := by
  simp only [applyShreddit]
  split_ifs <;> first | rfl | (split <;> rfl)

theorem applyStatusSpan_title (st : Option (List Char)) (d : RedditDetails) :
    (applyStatusSpan st d).reddit_title = d.reddit_title := by
  unfold applyStatusSpan
  split_ifs <;> rfl

theorem applyStatusSpan_archived_true (st : Option (List Char))
    (d : RedditDetails) (h : statusPhrase st = true) :
    (applyStatusSpan st d).reddit_is_archived = "Yes" := by
  unfold applyStatusSpan
  rw [if_pos h]

theorem applyStatusSpan_archived_false (st : Option (List Char))
    (d : RedditDetails) (h : statusPhrase st = false) :
    (applyStatusSpan st d).reddit_is_archived = d.reddit_is_archived := by
  unfold applyStatusSpan
  rw [if_neg (by simp [h])]

theorem applyUpdate_regex_archived (d : RedditDetails) (html : List Char)
    (hd : d.reddit_is_archived = "Yes") :
    (applyUpdate d (extract_with_regex html)).reddit_is_archived = "Yes" := by
  simp only [applyUpdate, extract_with_regex]
  split_ifs <;> simp [hd]

theorem applyUpdate_regex_archived_locked (d : RedditDetails) (html : List Char)
    (hl : lockedAnywhere html = true) :
    (applyUpdate d (extract_with_regex html)).reddit_is_archived = "Yes" := by
  simp only [applyUpdate, extract_with_regex, hl, Bool.or_true]
  rfl

theorem extractDetails_title_resolved (html : List Char) (p : ShredditPost)
    (st : Option (List Char)) (ts : String → Option (String × String))
    (hT : truthy p.postTitle = true) (hNe : p.postTitle.getD "" ≠ "Not found") :
    extract_reddit_details (some html) (some p) st ts
      = applyStatusSpan st (applyShreddit (some p) ts defaultDetails) := by
  have hTitle : (applyStatusSpan st
      (applyShreddit (some p) ts defaultDetails)).reddit_title ≠ "Not found" := by
    rw [applyStatusSpan_title, applyShreddit_title, if_pos hT]
    exact hNe
  simp only [extract_reddit_details]
  rw [if_neg hTitle]

theorem extractDetails_title_unresolved (html : List Char) (p : ShredditPost)
    (st : Option (List Char)) (ts : String → Option (String × String))
    (hF : truthy p.postTitle = false) :
    extract_reddit_details (some html) (some p) st ts
      = applyUpdate (applyStatusSpan st (applyShreddit (some p) ts defaultDetails))
          (extract_with_regex html) := by
  have hTitle : (applyStatusSpan st
      (applyShreddit (some p) ts defaultDetails)).reddit_title = "Not found" := by
    rw [applyStatusSpan_title, applyShreddit_title, if_neg (by simp [hF])]
    rfl
  simp only [extract_reddit_details]
  rw [if_pos hTitle]

/-- C6 counterexample: the `shreddit-post` marker is present and its
`score` attribute resolves the score to `"5"`, but the marker carries no
`post-title`, so the regex fallback runs and `details.update` overwrites
the primary-resolved score with the first `score="..."` occurrence of the
raw markup — `"999"`, from an unrelated earlier element. -/
theorem fallback_overwrites_primary :
    (extract_reddit_details
        (some "<div score=\"999\"></div><shreddit-post score=\"5\" comment-count=\"7\"></shreddit-post>".data)
        (some { postTitle := none, createdTimestamp := none,
                commentCount := some "7", score := some "5" })
        none (fun _ => none)).reddit_score = "999"
    ∧ ("999" : String) ≠ "5" := by
  exact ⟨rfl, by decide⟩

/-- C6 amended: the regex fallback runs exactly when the title still
holds the sentinel `Not found` after the primary step, and its recovered
fields are merged with dict `update`, which overwrites fields the primary
strategy already resolved: when the title was resolved (to anything other
than the sentinel) the fallback does not run at all, and when it was not,
a regex-found score replaces whatever the primary step stored. -/
theorem fallback_merge_semantics (html : List Char) (p : ShredditPost)
    (st : Option (List Char)) (ts : String → Option (String × String)) :
    (truthy p.postTitle = true → p.postTitle.getD "" ≠ "Not found" →
      extract_reddit_details (some html) (some p) st ts
        = applyStatusSpan st (applyShreddit (some p) ts defaultDetails))
    ∧ (truthy p.postTitle = false →
      ∀ v, captureAttr "score".data html = some v →
        (extract_reddit_details (some html) (some p) st ts).reddit_score
          = String.mk v) := by
  constructor
  · exact fun hT hNe => extractDetails_title_resolved html p st ts hT hNe
  · intro hF v hv
    rw [extractDetails_title_unresolved html p st ts hF]
    simp only [applyUpdate, extract_with_regex, hv]
    rfl

/-- C6 amended witness: a marker-resolved title suppresses the fallback;
an unresolved title lets the regex fallback set the score. -/
theorem fallback_merge_semantics_witness :
    extract_reddit_details (some "a".data)
        (some { postTitle := some "T", createdTimestamp := none,
                commentCount := none, score := none }) none (fun _ => none)
      = applyStatusSpan none (applyShreddit
          (some { postTitle := some "T", createdTimestamp := none,
                  commentCount := none, score := none }) (fun _ => none)
          defaultDetails)
    ∧ (extract_reddit_details (some "score=\"3\"".data)
        (some { postTitle := none, createdTimestamp := none,
                commentCount := none, score := some "5" }) none
        (fun _ => none)).reddit_score = String.mk "3".data := by
  constructor
  · exact (fallback_merge_semantics "a".data _ none (fun _ => none)).1
      (by decide) (by decide)
  · exact (fallback_merge_semantics "score=\"3\"".data _ none (fun _ => none)).2
      (by decide) "3".data rfl

/-- C7 counterexample: the primary marker resolves the title, so the
regex fallback — and with it the case-insensitive `locked`-anywhere
check — never runs: the markup contains `locked`, yet `is_archived`
stays `No` instead of the claimed `Yes`. -/
theorem locked_anywhere_not_independent :
    (extract_reddit_details
        (some "<shreddit-post post-title=\"My Post\"></shreddit-post><p>thread is locked</p>".data)
        (some { postTitle := some "My Post", createdTimestamp := none,
                commentCount := none, score := none })
        none (fun _ => none)).reddit_is_archived = "No"
    ∧ lockedAnywhere
        "<shreddit-post post-title=\"My Post\"></shreddit-post><p>thread is locked</p>".data
      = true := by
  exact ⟨rfl, rfl⟩

/-- C7 amended: the status-span phrase check does set `is_archived = Yes`
independently of field extraction, but the case-insensitive
`locked`-anywhere check lives inside the regex fallback and therefore
fires only when the title is still unresolved after the primary step;
with a resolved title and no status phrase, `is_archived` stays `No` even
when `locked` occurs in the markup. -/
theorem archived_detection_semantics (html : List Char) (p : ShredditPost)
    (st : Option (List Char)) (ts : String → Option (String × String)) :
    (statusPhrase st = true →
      (extract_reddit_details (some html) (some p) st ts).reddit_is_archived
        = "Yes")
    ∧ (truthy p.postTitle = false → lockedAnywhere html = true →
      (extract_reddit_details (some html) (some p) st ts).reddit_is_archived
        = "Yes")
    ∧ (truthy p.postTitle = true → p.postTitle.getD "" ≠ "Not found" →
      statusPhrase st = false →
      (extract_reddit_details (some html) (some p) st ts).reddit_is_archived
        = "No") := by
  refine ⟨?_, ?_, ?_⟩
  · intro hs
    by_cases hT : (applyStatusSpan st
        (applyShreddit (some p) ts defaultDetails)).reddit_title = "Not found"
    · simp only [extract_reddit_details]
      rw [if_pos hT]
      exact applyUpdate_regex_archived _ html (applyStatusSpan_archived_true st _ hs)
    · simp only [extract_reddit_details]
      rw [if_neg hT]
      exact applyStatusSpan_archived_true st _ hs
  · intro hF hl
    rw [extractDetails_title_unresolved html p st ts hF]
    exact applyUpdate_regex_archived_locked _ html hl
  · intro hT hNe hs
    rw [extractDetails_title_resolved html p st ts hT hNe,
      applyStatusSpan_archived_false st _ hs, applyShreddit_archived]
    rfl

/-- C7 amended witness: the status phrase alone, the fallback's locked
check with an unresolved title, and a resolved title keeping `No`. -/
theorem archived_detection_semantics_witness :
    (extract_reddit_details (some "h".data)
        (some { postTitle := none, createdTimestamp := none,
                commentCount := none, score := none })
        (some "Archived post".data) (fun _ => none)).reddit_is_archived = "Yes"
    ∧ (extract_reddit_details (some "locked".data)
        (some { postTitle := none, createdTimestamp := none,
                commentCount := none, score := none })
        none (fun _ => none)).reddit_is_archived = "Yes"
    ∧ (extract_reddit_details (some "locked".data)
        (some { postTitle := some "T", createdTimestamp := none,
                commentCount := none, score := none })
        none (fun _ => none)).reddit_is_archived = "No" := by
  refine ⟨?_, ?_, ?_⟩
  · exact (archived_detection_semantics "h".data _ _ _).1 (by decide)
  · exact (archived_detection_semantics "locked".data _ _ _).2.1 (by decide) rfl
  · exact (archived_detection_semantics "locked".data _ _ _).2.2
      (by decide) (by decide) rfl

/-- C8: the relative "time ago" label follows the stated precedence with
the first matching rule winning: at least 365 whole days gives
`ceil(days/365)` years; otherwise at least 30 days gives `ceil(days/30)`
months; otherwise at least 1 day gives the integer day count, singular at
exactly 1 (so a delta of exactly 86400 seconds gives "1 day ago");
otherwise at least 3600 seconds gives integer hours; otherwise at least
60 seconds gives integer minutes; and a 0-second delta gives "now". -/
theorem timeAgo_precedence (total_seconds : Nat) :
    (total_seconds / 86400 ≥ 365 →
      timeAgo total_seconds
        = toString (ceilDiv (total_seconds / 86400) 365) ++ " yr. ago")
    ∧ (total_seconds / 86400 < 365 → total_seconds / 86400 ≥ 30 →
      timeAgo total_seconds
        = toString (ceilDiv (total_seconds / 86400) 30) ++ " mo. ago")
    ∧ (total_seconds / 86400 = 1 → timeAgo total_seconds = "1 day ago")
    ∧ (2 ≤ total_seconds / 86400 → total_seconds / 86400 < 30 →
      timeAgo total_seconds = toString (total_seconds / 86400) ++ " days ago")
    ∧ (total_seconds < 86400 → total_seconds ≥ 3600 →
      timeAgo total_seconds = toString (total_seconds / 3600) ++ " hr. ago")
    ∧ (total_seconds < 3600 → total_seconds ≥ 60 →
      timeAgo total_seconds = toString (total_seconds / 60) ++ " min. ago")
    ∧ timeAgo 86400 = "1 day ago"
    ∧ timeAgo 0 = "now" := by
  refine ⟨?_, ?_, ?_, ?_, ?_, ?_, ?_, ?_⟩
  · intro h
    simp only [timeAgo]
    split_ifs
    rfl
  · intro h1 h2
    simp only [timeAgo]
    split_ifs <;> first | rfl | omega
  · intro h
    simp only [timeAgo]
    split_ifs <;> first | omega | (rw [h]; rfl)
  · intro h1 h2
    simp only [timeAgo]
    split_ifs <;>
      first
        | omega
        | (rw [String.append_assoc, String.append_assoc]; rfl)
  · intro h1 h2
    simp only [timeAgo]
    split_ifs <;> first | rfl | omega
  · intro h1 h2
    simp only [timeAgo]
    split_ifs <;> first | rfl | omega
  · rfl
  · rfl

/-- C8 witness: one concrete delta per rule, including the exact-86400
singular case and the zero delta. -/
theorem timeAgo_precedence_witness :
    timeAgo 31536000 = "1 yr. ago" ∧ timeAgo 3456000 = "2 mo. ago"
    ∧ timeAgo 86400 = "1 day ago" ∧ timeAgo 432000 = "5 days ago"
    ∧ timeAgo 7200 = "2 hr. ago" ∧ timeAgo 120 = "2 min. ago"
    ∧ timeAgo 0 = "now" := by
  refine ⟨?_, ?_, ?_, ?_, ?_, ?_, ?_⟩
  · exact ((timeAgo_precedence 31536000).1 (by decide)).trans (by decide)
  · exact ((timeAgo_precedence 3456000).2.1 (by decide) (by decide)).trans
      (by decide)
  · exact (timeAgo_precedence 86400).2.2.1 (by decide)
  · exact ((timeAgo_precedence 432000).2.2.2.1 (by decide) (by decide)).trans
      (by decide)
  · exact ((timeAgo_precedence 7200).2.2.2.2.1 (by decide) (by decide)).trans
      (by decide)
  · exact ((timeAgo_precedence 120).2.2.2.2.2.1 (by decide) (by decide)).trans
      (by decide)
  · exact (timeAgo_precedence 0).2.2.2.2.2.2.2
